import Mathlib

/-!
Verification development for the `security-constraints` tool
(`src/security_constraints/main.py`).

Python strings are modelled as `List Char` (Python string comparison and
the string methods used by the code — `split`, `strip`, `startswith`,
slicing, `replace`, `isnumeric` — are all code-point/character based, so a
character-list model is faithful on the ASCII data this program handles).
Stateful parts of `main` (exceptions, the output stream, the `finally`
block) are modelled with `Except` values and explicit result records.
-/

/-- Characters treated as whitespace by Python's argument-less `str.strip()`
(ASCII whitespace; the unicode whitespace cases do not occur in this
program's data). -/
def isPySpace (c : Char) : Bool :=
  c = ' ' || c = '\t' || c = '\n' || c = '\r' || c = '\x0b' || c = '\x0c'

/-- Python `s.strip(chars)`: remove characters satisfying `p` from both ends. -/
def pyStrip (p : Char → Bool) (s : List Char) : List Char :=
  ((s.dropWhile p).reverse.dropWhile p).reverse

/-- Python `s.split(sep)` for a one-character separator: always returns a
non-empty list of (possibly empty) parts. -/
def pySplit (sep : Char) : List Char → List (List Char)
  | [] => [[]]
  | c :: rest =>
    if c = sep then
      [] :: pySplit sep rest
    else
      match pySplit sep rest with
      | [] => [[c]]
      | h :: t => (c :: h) :: t

/-- Python `s.isnumeric()` restricted to the ASCII data of this program:
true iff the string is non-empty and every character is a decimal digit. -/
def pyIsNumeric (s : List Char) : Bool :=
  !s.isEmpty && s.all (fun c => c.isDigit)

/-- Python string comparison (`<=`): lexicographic by code point, with a
proper prefix comparing as smaller. -/
def charListLe : List Char → List Char → Bool
  | [], _ => true
  | _ :: _, [] => false
  | a :: as, b :: bs =>
    if a < b then true
    else if b < a then false
    else charListLe as bs

/-- `common.SecurityVulnerability`: one fetched vulnerability record. -/
structure SecurityVulnerability where
  name : List Char
  identifier : List Char
  package : List Char
  vulnerable_range : List Char
deriving DecidableEq, Repr

/-- `common.PackageConstraints`: a package plus its safe-version specifier
clauses. -/
structure PackageConstraints where
  package : List Char
  specifiers : List (List Char)
deriving DecidableEq, Repr

/-- `common.Configuration`: the parts used by the pipeline functions. -/
structure Configuration where
  ignore_ids : List (List Char)
  severities : List (List Char)
deriving DecidableEq, Repr

/-- The errors distinguished by `main`'s `except` clauses: domain errors
(`SecurityConstraintsError`, including `SourceError`) versus any other
exception. -/
inductive MainError where
  | domain
  | unexpected
deriving DecidableEq, Repr

/-- The operative-clause extraction at the top of
`get_safe_version_constraints`: if the range contains a comma, split on
commas, strip each part, and take the last part; otherwise strip the whole
range. -/
def operativeClause (r : List Char) : List Char :=
  if ',' ∈ r then
    ((pySplit ',' r).map (pyStrip isPySpace)).getLastD []
  else
    pyStrip isPySpace r

/-- `main.get_safe_version_constraints`: invert the vulnerable range of a
vulnerability into safe-version constraints. -/
def getSafeVersionConstraints (v : SecurityVulnerability) : PackageConstraints :=
  let vulnerable_spec := operativeClause v.vulnerable_range
  let safe_specs : List (List Char) :=
    if ['=', ' '].isPrefixOf vulnerable_spec then
      [['!', '='] ++ vulnerable_spec.drop 2]
    else if ['<', '=', ' '].isPrefixOf vulnerable_spec then
      [['>'] ++ vulnerable_spec.drop 3]
    else if ['<', ' '].isPrefixOf vulnerable_spec then
      [['>', '='] ++ vulnerable_spec.drop 2]
    else if ['>', '=', ' '].isPrefixOf vulnerable_spec then
      [['<'] ++ vulnerable_spec.drop 3]
    else
      []
  { package := v.package, specifiers := safe_specs }

/-- The per-clause check inside `main.are_constraints_pip_friendly`:
`part.startswith("=")` passes the clause outright; otherwise the clause is
stripped of `<>=! ` at both ends, its dots removed, and the remainder must
be numeric. -/
def clauseFriendly (part : List Char) : Bool :=
  if ['='].isPrefixOf part then
    true
  else
    pyIsNumeric ((pyStrip
      (fun c => c = '<' || c = '>' || c = '=' || c = '!' || c = ' ') part).filter
      (fun c => !(c == '.')))

/-- `main.are_constraints_pip_friendly`: returns False on the first clause
failing `clauseFriendly`, True when no clause fails. -/
def areConstraintsPipFriendly (c : PackageConstraints) : Bool :=
  c.specifiers.all clauseFriendly

/-- `main.filter_vulnerabilities`: when the configured `ignore_ids` list is
non-empty (Python truthiness), keep exactly the vulnerabilities whose
identifier is not a member of it. -/
def filterVulnerabilities (config : Configuration)
    (vulnerabilities : List SecurityVulnerability) : List SecurityVulnerability :=
  if config.ignore_ids.isEmpty then
    vulnerabilities
  else
    vulnerabilities.filter (fun v => decide (v.identifier ∉ config.ignore_ids))

/-- `main.sort_vulnerabilities`: Python's `sorted` with key `v.package` is a
stable merge sort under the lexicographic string order, modelled with
`List.mergeSort` (which is stable) over `charListLe` on the package names. -/
def sortVulnerabilities
    (vulnerabilities : List SecurityVulnerability) : List SecurityVulnerability :=
  vulnerabilities.mergeSort (fun a b => charListLe a.package b.package)

/-- Modelled from the spec: `common.PackageConstraints.__str__` is not under
`src/`; per the spec's data-line form `<package><op><version>` and its note
that clauses would be joined on one line, it is the package name followed by
the comma-joined specifier clauses. -/
def constraintsStr (c : PackageConstraints) : List Char :=
  c.package ++ List.intercalate [','] c.specifiers

/-- `main.format_constraints_file_line`: raises `AssertionError` (an
unexpected, non-domain error) when the constraints and the vulnerability
name different packages; otherwise produces the data line. -/
def formatConstraintsFileLine (c : PackageConstraints)
    (v : SecurityVulnerability) : Except MainError (List Char) :=
  if c.package ≠ v.package then
    Except.error MainError.unexpected
  else
    Except.ok (constraintsStr c ++ "  # ".data ++ v.name
      ++ " (ID: ".data ++ v.identifier ++ ")".data)

/-- `main.fetch_vulnerabilities`: each configured API's `get_vulnerabilities`
result is modelled as an `Except` value; the loop extends the accumulator in
source-list order and the first raising source aborts the whole fetch. -/
def fetchVulnerabilities :
    List (Except MainError (List SecurityVulnerability)) →
    Except MainError (List SecurityVulnerability)
  | [] => Except.ok []
  | r :: rs =>
    match r with
    | Except.error e => Except.error e
    | Except.ok vs =>
      match fetchVulnerabilities rs with
      | Except.error e => Except.error e
      | Except.ok rest => Except.ok (vs ++ rest)

/-- The per-vulnerability loop at the end of `main`: for each vulnerability,
compute the constraints; when they pass `are_constraints_pip_friendly`,
write one formatted line. Returns the lines written before any exception,
and the exception if one was raised. -/
def emitLoop : List SecurityVulnerability → List (List Char) × Option MainError
  | [] => ([], none)
  | v :: rest =>
    let c := getSafeVersionConstraints v
    if areConstraintsPipFriendly c then
      match formatConstraintsFileLine c v with
      | Except.error e => ([], some e)
      | Except.ok line =>
        let r := emitLoop rest
        (line :: r.1, r.2)
    else
      emitLoop rest

/-- The observable result of one run of `main`: the returned exit code and
the lines written to the output stream. -/
structure RunResult where
  exitCode : Nat
  written : List (List Char)
deriving DecidableEq, Repr

/-- The pipeline portion of `main` (fetch, filter, sort, header write, emit
loop) together with its `except` clauses: a `SecurityConstraintsError` maps
to exit code 1, any other exception to exit code 2, and a clean run to 0.
The header is written only after a successful fetch, before all data
lines. -/
def mainRun (config : Configuration)
    (apiResults : List (Except MainError (List SecurityVulnerability)))
    (header : List Char) : RunResult :=
  match fetchVulnerabilities apiResults with
  | Except.error MainError.domain => { exitCode := 1, written := [] }
  | Except.error MainError.unexpected => { exitCode := 2, written := [] }
  | Except.ok vulns =>
    let ordered := sortVulnerabilities (filterVulnerabilities config vulns)
    match emitLoop ordered with
    | (lines, some MainError.domain) => { exitCode := 1, written := header :: lines }
    | (lines, some MainError.unexpected) => { exitCode := 2, written := header :: lines }
    | (lines, none) => { exitCode := 0, written := header :: lines }

/-- The output stream handed to `main` by the CLI layer (argparse
`FileType`): per the spec it arrives already open; all that `main`'s
`finally` block inspects is `isatty`. -/
structure OutputStream where
  isatty : Bool
deriving DecidableEq, Repr

/-- The parsed arguments relevant to `main`'s control flow and its
`finally` block. -/
structure Args where
  version : Bool
  dump_config : Bool
  output : Option OutputStream
deriving DecidableEq, Repr

/-- How the body of `main` after argument handling ends. -/
inductive PipelineOutcome where
  | ok
  | domainError
  | unexpectedError
deriving DecidableEq, Repr

/-- `main`'s `finally` block: `if output is not None and not output.isatty():
output.close()` — reports whether the stream was closed, given the value of
the local variable `output` at return time. -/
def finallyCloses (output : Option OutputStream) : Bool :=
  match output with
  | some s => !s.isatty
  | none => false

/-- The exit code of `main` paired with whether the output stream was closed
by the `finally` block. -/
structure MainExit where
  exitCode : Nat
  closedOutput : Bool
deriving DecidableEq, Repr

/-- The control-flow skeleton of `main` around the pipeline: the `--version`
early return happens before the local `output` is assigned; the
`output is None` assertion raises an unexpected error; `--dump-config`
returns after `output` is assigned; otherwise the pipeline outcome is mapped
by the `except` clauses. Every path runs the `finally` block with the value
the local `output` has at that point. -/
def mainExit (args : Args) (outcome : PipelineOutcome) : MainExit :=
  if args.version then
    { exitCode := 0, closedOutput := finallyCloses none }
  else
    match args.output with
    | none => { exitCode := 2, closedOutput := finallyCloses none }
    | some s =>
      if args.dump_config then
        { exitCode := 0, closedOutput := finallyCloses (some s) }
      else
        match outcome with
        | PipelineOutcome.ok =>
          { exitCode := 0, closedOutput := finallyCloses (some s) }
        | PipelineOutcome.domainError =>
          { exitCode := 1, closedOutput := finallyCloses (some s) }
        | PipelineOutcome.unexpectedError =>
          { exitCode := 2, closedOutput := finallyCloses (some s) }

/-- Vulnerability records for the sort-stability example: packages fetched
in order zeta, alpha, alpha. -/
def exZeta : SecurityVulnerability :=
  { name := "z vuln".data, identifier := "ID-Z".data,
    package := "zeta".data, vulnerable_range := "< 3.0.0".data }

def exAlphaFirst : SecurityVulnerability :=
  { name := "a vuln 1".data, identifier := "ID-A1".data,
    package := "alpha".data, vulnerable_range := "= 1.0.0".data }

def exAlphaSecond : SecurityVulnerability :=
  { name := "a vuln 2".data, identifier := "ID-A2".data,
    package := "alpha".data, vulnerable_range := "= 2.0.0".data }

/-- Vulnerability with a two-clause range, for the range-discarding example. -/
def exTwoClause : SecurityVulnerability :=
  { name := "two clause".data, identifier := "ID-T".data,
    package := "pkg".data, vulnerable_range := "<= 2.0.0, >= 1.0.0".data }

/-- Vulnerability whose operative clause has an unrecognized operator. -/
def exUnrecognized : SecurityVulnerability :=
  { name := "odd operator".data, identifier := "ID-U".data,
    package := "pkg".data, vulnerable_range := "~= 1.0".data }

/-! ## Helper lemmas -/

theorem gsvc_package (v : SecurityVulnerability) :
    (getSafeVersionConstraints v).package = v.package := rfl

theorem pySplit_of_not_mem (s : List Char) (h : ',' ∉ s) :
    pySplit ',' s = [s] := by
  induction s with
  | nil => rfl
  | cons c cs ih =>
    simp only [List.mem_cons, not_or] at h
    have hc : ¬(c = ',') := fun e => h.1 e.symm
    simp [pySplit, hc, ih h.2]

theorem pySplit_append_comma (a b : List Char) (ha : ',' ∉ a) :
    pySplit ',' (a ++ ',' :: b) = a :: pySplit ',' b := by
  induction a with
  | nil => simp [pySplit]
  | cons c cs ih =>
    simp only [List.mem_cons, not_or] at ha
    have hc : ¬(c = ',') := fun e => ha.1 e.symm
    simp [pySplit, hc, ih ha.2]

/-! ## Claims C1 and C2: the range inverter -/

/-- C1: for a vulnerability whose operative clause is exactly one of the four
recognized forms, the range inverter maps the operator as `= v` to `!=v`,
`<= v` to `>v`, `< v` to `>=v`, `>= v` to `<v`, with the version text
carried over unchanged and no space after the inverted operator. -/
theorem range_inversion_of_recognized_operator
    (v : SecurityVulnerability) (ver : List Char) :
    (operativeClause v.vulnerable_range = '=' :: ' ' :: ver →
      (getSafeVersionConstraints v).specifiers = ['!' :: '=' :: ver])
  ∧ (operativeClause v.vulnerable_range = '<' :: '=' :: ' ' :: ver →
      (getSafeVersionConstraints v).specifiers = ['>' :: ver])
  ∧ (operativeClause v.vulnerable_range = '<' :: ' ' :: ver →
      (getSafeVersionConstraints v).specifiers = ['>' :: '=' :: ver])
  ∧ (operativeClause v.vulnerable_range = '>' :: '=' :: ' ' :: ver →
      (getSafeVersionConstraints v).specifiers = ['<' :: ver]) := by
  refine ⟨?_, ?_, ?_, ?_⟩ <;> intro h <;>
    simp [getSafeVersionConstraints, h, List.isPrefixOf]

/-- Witness for C1: all four operator forms at version text 1.2.3; the
four anonymous records are name, identifier, package, vulnerable range. -/
theorem range_inversion_of_recognized_operator_witness :
    (getSafeVersionConstraints
      ⟨"n".data, "i".data, "p".data, "= 1.2.3".data⟩).specifiers
      = ["!=1.2.3".data]
  ∧ (getSafeVersionConstraints
      ⟨"n".data, "i".data, "p".data, "<= 1.2.3".data⟩).specifiers
      = [">1.2.3".data]
  ∧ (getSafeVersionConstraints
      ⟨"n".data, "i".data, "p".data, "< 1.2.3".data⟩).specifiers
      = [">=1.2.3".data]
  ∧ (getSafeVersionConstraints
      ⟨"n".data, "i".data, "p".data, ">= 1.2.3".data⟩).specifiers
      = ["<1.2.3".data] :=
  ⟨(range_inversion_of_recognized_operator _ "1.2.3".data).1 (by decide),
   (range_inversion_of_recognized_operator _ "1.2.3".data).2.1 (by decide),
   (range_inversion_of_recognized_operator _ "1.2.3".data).2.2.1 (by decide),
   (range_inversion_of_recognized_operator _ "1.2.3".data).2.2.2 (by decide)⟩

/-- C2: when the vulnerable range contains a comma separating two
comma-free clauses, the stripped second (last) clause is the operative
clause and the first is discarded; in particular the range
`<= 2.0.0, >= 1.0.0` yields exactly the single constraint `<1.0.0`. -/
theorem two_clause_range_takes_last
    (v : SecurityVulnerability) (a b : List Char) :
    (v.vulnerable_range = a ++ ',' :: b → ',' ∉ a → ',' ∉ b →
      operativeClause v.vulnerable_range = pyStrip isPySpace b)
  ∧ getSafeVersionConstraints exTwoClause
      = { package := "pkg".data, specifiers := ["<1.0.0".data] } := by
  constructor
  · intro h ha hb
    have hmem : ',' ∈ v.vulnerable_range := by simp [h]
    simp only [operativeClause, if_pos hmem, h]
    rw [pySplit_append_comma a b ha, pySplit_of_not_mem b hb]
    simp
  · decide

/-- Witness for C2: the operative clause of the two-clause example is the
stripped second clause. -/
theorem two_clause_range_takes_last_witness :
    operativeClause exTwoClause.vulnerable_range
      = pyStrip isPySpace " >= 1.0.0".data :=
  (two_clause_range_takes_last exTwoClause "<= 2.0.0".data " >= 1.0.0".data).1
    (by decide) (by decide) (by decide)

/-! ## Claim C3: the compatibility filter -/

/-- C3 evaluated on the code: the exclusion clause `!=2.5.0a5` is REJECTED
by `are_constraints_pip_friendly` — the code's skip test is
`part.startswith("=")`, which `!=...` does not satisfy, so the clause is
stripped to `2.5.0a5` and fails the numeric check. The comparison clauses
behave as the claim says: `<=2.5.0a5` is unfriendly and `<2.0.0` friendly. -/
theorem pip_friendly_eval_at_failing_input :
    areConstraintsPipFriendly ⟨"pkg".data, ["!=2.5.0a5".data]⟩ = false
  ∧ areConstraintsPipFriendly ⟨"pkg".data, ["<=2.5.0a5".data]⟩ = false
  ∧ areConstraintsPipFriendly ⟨"pkg".data, ["<2.0.0".data]⟩ = true := by
  decide

/-! ## Claim C4: unrecognized operator forms -/

/-- C4 counterexample: for the vulnerability with the unrecognized operator
`~=`, the inverter does return an empty specifier list, but the pipeline's
per-vulnerability loop still emits one data line for it (the empty
constraints pass the compatibility filter vacuously), contradicting the
claim that no data line is emitted. -/
theorem unparseable_operator_still_emits_line :
    (getSafeVersionConstraints exUnrecognized).specifiers = []
  ∧ (emitLoop [exUnrecognized]).1.length = 1 := by
  decide

/-- C4 (amended): for every vulnerability whose operative clause begins with
none of the four recognized operator-plus-space forms, the range inverter
returns an empty specifier list and no error is raised, but the pipeline
emits one (constraint-less) data line for the vulnerability rather than
dropping it, because the empty constraints vacuously pass
`are_constraints_pip_friendly`. -/
theorem unparseable_operator_empty_and_emitted (v : SecurityVulnerability)
    (h1 : ['=', ' '].isPrefixOf (operativeClause v.vulnerable_range) = false)
    (h2 : ['<', '=', ' '].isPrefixOf (operativeClause v.vulnerable_range) = false)
    (h3 : ['<', ' '].isPrefixOf (operativeClause v.vulnerable_range) = false)
    (h4 : ['>', '=', ' '].isPrefixOf (operativeClause v.vulnerable_range) = false) :
    (getSafeVersionConstraints v).specifiers = []
  ∧ (emitLoop [v]).2 = none
  ∧ (emitLoop [v]).1.length = 1 := by
  have hs : (getSafeVersionConstraints v).specifiers = [] := by
    simp [getSafeVersionConstraints, h1, h2, h3, h4]
  have hfriendly : areConstraintsPipFriendly (getSafeVersionConstraints v) = true := by
    simp [areConstraintsPipFriendly, hs]
  have hformat : formatConstraintsFileLine (getSafeVersionConstraints v) v
      = Except.ok (constraintsStr (getSafeVersionConstraints v) ++ "  # ".data
          ++ v.name ++ " (ID: ".data ++ v.identifier ++ ")".data) := by
    simp [formatConstraintsFileLine, gsvc_package]
  refine ⟨hs, ?_, ?_⟩ <;> simp [emitLoop, hfriendly, hformat]

/-- Witness for the amended C4, at the `~= 1.0` example. -/
theorem unparseable_operator_empty_and_emitted_witness :
    (getSafeVersionConstraints exUnrecognized).specifiers = []
  ∧ (emitLoop [exUnrecognized]).2 = none
  ∧ (emitLoop [exUnrecognized]).1.length = 1 :=
  unparseable_operator_empty_and_emitted exUnrecognized
    (by decide) (by decide) (by decide) (by decide)

/-! ## Claim C5: the ignore-list filter -/

/-- C5: `filter_vulnerabilities` keeps exactly the vulnerabilities whose
identifier is not in the configured ignore list, preserving their original
relative order (it equals a single order-preserving `filter`), and a
vulnerability whose identifier is in the list never appears in the
result. -/
theorem ignore_ids_filtering (config : Configuration)
    (vs : List SecurityVulnerability) :
    filterVulnerabilities config vs
      = vs.filter (fun v => decide (v.identifier ∉ config.ignore_ids))
  ∧ (∀ v, v ∈ filterVulnerabilities config vs ↔
      v ∈ vs ∧ v.identifier ∉ config.ignore_ids) := by
  have h : filterVulnerabilities config vs
      = vs.filter (fun v => decide (v.identifier ∉ config.ignore_ids)) := by
    by_cases he : config.ignore_ids.isEmpty
    · have hnil : config.ignore_ids = [] := by
        cases hc : config.ignore_ids with
        | nil => rfl
        | cons x xs => rw [hc] at he; simp at he
      simp [filterVulnerabilities, he, hnil]
    · simp [filterVulnerabilities, he]
  refine ⟨h, fun v => ?_⟩
  rw [h]
  simp [List.mem_filter]

/-! ## Claim C10: empty constraints pass the filter -/

/-- C10: `are_constraints_pip_friendly` is vacuously true on any
`PackageConstraints` whose specifier list is empty, so such constraints
always pass the compatibility filter. -/
theorem empty_specifiers_pip_friendly (c : PackageConstraints)
    (h : c.specifiers = []) : areConstraintsPipFriendly c = true := by
  simp [areConstraintsPipFriendly, h]

/-- Witness for C10: concrete empty-specifier constraints. -/
theorem empty_specifiers_pip_friendly_witness :
    areConstraintsPipFriendly ⟨"pkg".data, []⟩ = true :=
  empty_specifiers_pip_friendly ⟨"pkg".data, []⟩ rfl

/-! ## Claim C6: sorting -/

theorem charListLe_refl (s : List Char) : charListLe s s = true := by
  induction s with
  | nil => rfl
  | cons a as ih => simp [charListLe, ih]

theorem charListLe_total (s t : List Char) :
    (charListLe s t || charListLe t s) = true := by
  induction s generalizing t with
  | nil => simp [charListLe]
  | cons a as ih =>
    cases t with
    | nil => simp [charListLe]
    | cons b bs =>
      by_cases h1 : a < b
      · simp [charListLe, h1]
      · by_cases h2 : b < a
        · simp [charListLe, h1, h2]
        · simpa [charListLe, h1, h2] using ih bs

theorem charListLe_trans (s t u : List Char) (h1 : charListLe s t = true)
    (h2 : charListLe t u = true) : charListLe s u = true := by
  induction s generalizing t u with
  | nil => simp [charListLe]
  | cons a as ih =>
    cases t with
    | nil => simp [charListLe] at h1
    | cons b bs =>
      cases u with
      | nil => simp [charListLe] at h2
      | cons c cs =>
        rcases lt_trichotomy a b with hab | hab | hab
        · rcases lt_trichotomy b c with hbc | hbc | hbc
          · simp [charListLe, lt_trans hab hbc]
          · subst hbc
            simp [charListLe, hab]
          · simp [charListLe, lt_asymm hbc, hbc] at h2
        · subst hab
          rcases lt_trichotomy a c with hac | hac | hac
          · simp [charListLe, hac]
          · subst hac
            simp [charListLe, lt_irrefl] at h1 h2 ⊢
            exact ih bs cs h1 h2
          · simp [charListLe, lt_asymm hac, hac] at h2
        · simp [charListLe, lt_asymm hab, hab] at h1

/-- C6: `sort_vulnerabilities` returns a permutation of its input that is
sorted by package name in ascending lexicographic order, and the sort is
stable — for every package name, the subsequence of vulnerabilities with
that package is unchanged; in particular packages fetched in order
zeta, alpha, alpha sort to alpha, alpha, zeta with the two alpha entries
in their original relative order. -/
theorem sort_by_package_stable :
    (∀ vs : List SecurityVulnerability,
      (sortVulnerabilities vs).Perm vs
      ∧ List.Pairwise
          (fun a b => charListLe a.package b.package = true) (sortVulnerabilities vs)
      ∧ (∀ p : List Char,
          (sortVulnerabilities vs).filter (fun v => v.package == p)
            = vs.filter (fun v => v.package == p)))
  ∧ sortVulnerabilities [exZeta, exAlphaFirst, exAlphaSecond]
      = [exAlphaFirst, exAlphaSecond, exZeta] := by
  have htrans : ∀ x y z : SecurityVulnerability,
      (fun a b : SecurityVulnerability => charListLe a.package b.package) x y = true →
      (fun a b : SecurityVulnerability => charListLe a.package b.package) y z = true →
      (fun a b : SecurityVulnerability => charListLe a.package b.package) x z = true :=
    fun x y z hxy hyz => charListLe_trans _ _ _ hxy hyz
  have htotal : ∀ x y : SecurityVulnerability,
      ((fun a b : SecurityVulnerability => charListLe a.package b.package) x y
        || (fun a b : SecurityVulnerability => charListLe a.package b.package) y x) = true :=
    fun x y => charListLe_total _ _
  constructor
  · intro vs
    refine ⟨List.mergeSort_perm vs _, List.sorted_mergeSort htrans htotal vs, ?_⟩
    intro p
    have hsub0 : (vs.filter (fun v => v.package == p)).Sublist vs :=
      List.filter_sublist vs
    have hpair : List.Pairwise
        (fun a b : SecurityVulnerability => charListLe a.package b.package = true)
        (vs.filter (fun v => v.package == p)) := by
      apply List.pairwise_of_forall_mem_list
      intro x hx y hy
      have hxp : x.package = p := by
        have := (List.mem_filter.mp hx).2
        simpa using this
      have hyp : y.package = p := by
        have := (List.mem_filter.mp hy).2
        simpa using this
      rw [hxp, hyp]
      exact charListLe_refl p
    have hsub : (vs.filter (fun v => v.package == p)).Sublist (sortVulnerabilities vs) :=
      List.sublist_mergeSort htrans htotal hpair hsub0
    have h4 : (vs.filter (fun v => v.package == p)).filter (fun v => v.package == p)
        = vs.filter (fun v => v.package == p) := by
      apply List.filter_eq_self.mpr
      intro a ha
      exact (List.mem_filter.mp ha).2
    have h2 : (vs.filter (fun v => v.package == p)).Sublist
        ((sortVulnerabilities vs).filter (fun v => v.package == p)) := by
      have h3 := List.Sublist.filter (fun v => v.package == p) hsub
      rwa [h4] at h3
    have hperm : ((sortVulnerabilities vs).filter (fun v => v.package == p)).Perm
        (vs.filter (fun v => v.package == p)) :=
      List.Perm.filter _ (List.mergeSort_perm vs _)
    exact (List.Sublist.eq_of_length h2 (by rw [hperm.length_eq])).symm
  · simp +decide [sortVulnerabilities, List.mergeSort, exZeta, exAlphaFirst,
      exAlphaSecond, charListLe]

/-! ## Claims C7, C8, C9: main's error handling and resources -/

theorem format_gsvc_ok (v : SecurityVulnerability) :
    formatConstraintsFileLine (getSafeVersionConstraints v) v
      = Except.ok (constraintsStr (getSafeVersionConstraints v) ++ "  # ".data
          ++ v.name ++ " (ID: ".data ++ v.identifier ++ ")".data) := by
  simp [formatConstraintsFileLine, gsvc_package]

theorem emitLoop_no_error (vs : List SecurityVulnerability) :
    (emitLoop vs).2 = none := by
  induction vs with
  | nil => rfl
  | cons v rest ih =>
    by_cases hf : areConstraintsPipFriendly (getSafeVersionConstraints v)
    · simp [emitLoop, hf, format_gsvc_ok, ih]
    · simp [emitLoop, hf, ih]

/-- C7: a fetch that fails with a domain error makes the run abort with
exit code 1 before anything (in particular any data line) is written; an
unexpected fetch failure gives the distinct exit code 2; a run whose fetch
succeeds returns 0; and fetching concatenates the per-source results in
source-list order. -/
theorem main_exit_codes (config : Configuration) (header : List Char)
    (apiResults : List (Except MainError (List SecurityVulnerability))) :
    (fetchVulnerabilities apiResults = Except.error MainError.domain →
      mainRun config apiResults header = { exitCode := 1, written := [] })
  ∧ (fetchVulnerabilities apiResults = Except.error MainError.unexpected →
      mainRun config apiResults header = { exitCode := 2, written := [] })
  ∧ (∀ vulns, fetchVulnerabilities apiResults = Except.ok vulns →
      (mainRun config apiResults header).exitCode = 0)
  ∧ (∀ vss : List (List SecurityVulnerability),
      fetchVulnerabilities (vss.map Except.ok) = Except.ok vss.flatten) := by
  refine ⟨?_, ?_, ?_, ?_⟩
  · intro h
    simp [mainRun, h]
  · intro h
    simp [mainRun, h]
  · intro vulns h
    rcases hemit : emitLoop (sortVulnerabilities (filterVulnerabilities config vulns))
      with ⟨lines, err⟩
    have he2 := emitLoop_no_error
      (sortVulnerabilities (filterVulnerabilities config vulns))
    rw [hemit] at he2
    simp only at he2
    subst he2
    simp [mainRun, h, hemit]
  · intro vss
    induction vss with
    | nil => rfl
    | cons vs rest ih => simp [fetchVulnerabilities, ih]

/-- Witness for C7: a domain-failing source, an unexpectedly failing source,
and a successful empty fetch, each at a concrete configuration. -/
theorem main_exit_codes_witness :
    mainRun ⟨[], []⟩ [Except.error MainError.domain] "H".data
      = { exitCode := 1, written := [] }
  ∧ mainRun ⟨[], []⟩ [Except.error MainError.unexpected] "H".data
      = { exitCode := 2, written := [] }
  ∧ (mainRun ⟨[], []⟩ [Except.ok []] "H".data).exitCode = 0 :=
  ⟨(main_exit_codes ⟨[], []⟩ "H".data [Except.error MainError.domain]).1 rfl,
   (main_exit_codes ⟨[], []⟩ "H".data [Except.error MainError.unexpected]).2.1 rfl,
   (main_exit_codes ⟨[], []⟩ "H".data [Except.ok []]).2.2.1 [] rfl⟩

/-- C8: the constraints produced by the range inverter always carry the
vulnerability's own package, so formatting the pair never hits the
mismatched-package assertion (it returns a line), while a mismatched pair
would be the unexpected-error case. -/
theorem constraints_package_matches (v : SecurityVulnerability)
    (c : PackageConstraints) (w : SecurityVulnerability) :
    (getSafeVersionConstraints v).package = v.package
  ∧ (formatConstraintsFileLine (getSafeVersionConstraints v) v).isOk = true
  ∧ (c.package ≠ w.package →
      formatConstraintsFileLine c w = Except.error MainError.unexpected) := by
  refine ⟨rfl, ?_, ?_⟩
  · rw [format_gsvc_ok]
    rfl
  · intro hne
    simp [formatConstraintsFileLine, hne]

/-- Witness for C8: the inverter output formats successfully for its own
vulnerability, and a mismatched package yields the unexpected error. -/
theorem constraints_package_matches_witness :
    (getSafeVersionConstraints exZeta).package = exZeta.package
  ∧ (formatConstraintsFileLine (getSafeVersionConstraints exZeta) exZeta).isOk = true
  ∧ formatConstraintsFileLine ⟨"other".data, []⟩ exZeta
      = Except.error MainError.unexpected :=
  ⟨(constraints_package_matches exZeta ⟨"other".data, []⟩ exZeta).1,
   (constraints_package_matches exZeta ⟨"other".data, []⟩ exZeta).2.1,
   (constraints_package_matches exZeta ⟨"other".data, []⟩ exZeta).2.2 (by decide)⟩

/-- C9 counterexample: on the early `--version` return (a normal completion,
exit code 0) the output stream supplied already-open by the CLI layer is
not closed, because `main` returns before its local `output` variable is
assigned and the `finally` block therefore sees `None`. -/
theorem version_path_leaves_stream_open :
    mainExit ⟨true, false, some ⟨false⟩⟩ PipelineOutcome.ok
      = { exitCode := 0, closedOutput := false } := by
  decide

/-- C9 (amended): on every exit path of `main` that assigns the local
`output` variable — dump-config exit, normal completion, handled domain
error, and unhandled unexpected error — a non-tty output stream is closed
by the `finally` block before `main` returns; only the early `--version`
return path leaves an already-opened stream unclosed. -/
theorem output_closed_on_bound_paths (args : Args) (outcome : PipelineOutcome)
    (s : OutputStream) (hv : args.version = false) (ho : args.output = some s)
    (ht : s.isatty = false) :
    (mainExit args outcome).closedOutput = true := by
  cases outcome <;> by_cases hd : args.dump_config <;>
    simp [mainExit, hv, ho, hd, finallyCloses, ht]

/-- Witness for the amended C9: a normal completion with a bound non-tty
stream closes it. -/
theorem output_closed_on_bound_paths_witness :
    (mainExit ⟨false, false, some ⟨false⟩⟩ PipelineOutcome.ok).closedOutput = true :=
  output_closed_on_bound_paths ⟨false, false, some ⟨false⟩⟩ PipelineOutcome.ok
    ⟨false⟩ rfl rfl rfl
